import Mathlib

/-!
Shallow embedding of the dramabox downloader and scraper sources
(dramabox_downloader.py, dramabox_scraper.py).

External effects (HTTP responses, the local filesystem, wall-clock sleeps)
are modelled as explicit environment values passed to each function; the
persisted history ledger is modelled as the in-memory list of records that
the source reads, rewrites and writes back wholesale on every save.
-/

namespace Dramabox

/-! Model of download_file (dramabox_downloader.py, lines 94-119).

The environment of one call carries everything the source observes:
  localSize  - result of os.path.exists / os.path.getsize on the destination
               (none when the file does not exist);
  remoteSize - result of get_file_size(url), 0 meaning unknown (the probe
               reports 0 on any failure and never raises);
  connOk     - whether requests.get plus raise_for_status succeeds;
  body       - the chunks the streamed response yields;
  failAt     - none when the stream completes, some k when an exception is
               raised after k chunks were written (open with mode wb has
               already truncated the file by then). -/

inductive Outcome
  | skipped
  | downloaded
  | failed
deriving DecidableEq

structure DLEnv where
  localSize : Option Nat
  remoteSize : Nat
  connOk : Bool
  body : List Nat
  failAt : Option Nat
deriving DecidableEq

/-- Result of one download_file call: the boolean status of the returned
pair, which message branch produced it, and what was written to the
destination (none means the file was not touched). -/
structure DLResult where
  ok : Bool
  outcome : Outcome
  written : Option (List Nat)
deriving DecidableEq

/-- The resume check of download_file: skip only when the file exists, its
size is positive, and the remote size is 0 (unknown) or equals the local
size. -/
def skipCheck (e : DLEnv) : Bool :=
  match e.localSize with
  | some ls => decide (0 < ls) && (e.remoteSize == 0 || ls == e.remoteSize)
  | none => false

def download_file (e : DLEnv) : DLResult :=
  if skipCheck e then ⟨true, Outcome.skipped, none⟩
  else if e.connOk then
    match e.failAt with
    | none => ⟨true, Outcome.downloaded, some e.body⟩
    | some k => ⟨false, Outcome.failed, some (e.body.take k)⟩
  else ⟨false, Outcome.failed, none⟩

/-! Model of the batch accounting in process_book_parallel (lines 247-262):
each task is submitted to the pool, every future yields exactly one
(status, message) pair, and success_count counts the true statuses. The
completion order delivered by as_completed is an arbitrary permutation of
the submitted tasks. -/

def batchResults (envs : List DLEnv) : List DLResult :=
  envs.map download_file

def successCount (rs : List DLResult) : Nat :=
  (rs.filter (fun r => r.ok)).length

def failureCount (rs : List DLResult) : Nat :=
  (rs.filter (fun r => !r.ok)).length

/-! Model of the Excel history ledger (lines 123-153). load_history and
the to_excel write are persistence steps whose failures the source
swallows; the ledger state is the list of rows of the spreadsheet, in
order. Column values are kept with their source names. -/

structure HistoryRecord where
  BookID : String
  Title : String
  TotalChapters : Nat
  DownloadDate : String
  Status : String
deriving DecidableEq

/-- check_is_downloaded (lines 147-153): first row whose BookID matches,
none when the frame is empty or no row matches. -/
def check_is_downloaded (df : List HistoryRecord) (book_id : String) :
    Option HistoryRecord :=
  df.find? (fun r => r.BookID == book_id)

/-- save_to_history (lines 131-145): drop every row whose BookID equals
the given id, then append the fresh row (now stands for the
datetime.now timestamp string). -/
def save_to_history (df : List HistoryRecord) (book_id : String)
    (title : String) (total_chapters : Nat) (status : String)
    (now : String) : List HistoryRecord :=
  df.filter (fun r => r.BookID != book_id) ++
    [⟨book_id, title, total_chapters, now, status⟩]

/-! Model of the catalog scanner fetch_all_available_books
(lines 272-337) together with the per-item field extraction. -/

/-- One raw catalog item as the JSON dict exposes it: each field is
present (some) or absent (none). -/
structure RawItem where
  idField : Option String
  bookIdField : Option String
  episode : Option String
  titleField : Option String
  bookNameField : Option String
  thumbnail : Option String
  coverWap : Option String
deriving DecidableEq

/-- bid = str(item.get(id, item.get(bookId))) (line 303): the id key wins,
then the bookId key; when both are absent Python stringifies None. -/
def rawId (it : RawItem) : String :=
  match it.idField with
  | some s => s
  | none =>
    match it.bookIdField with
    | some s => s
    | none => "None"

/-- eps_str = str(item.get(episode, 0-string)) (line 308). -/
def eps_str (it : RawItem) : String :=
  it.episode.getD "0"

/-- Python int() applied to a string of digit characters: ValueError
(none) on the empty string, otherwise the decimal value. -/
def pythonIntOfDigits (ds : List Char) : Option Nat :=
  if ds.isEmpty then none
  else some (ds.foldl (fun n c => n * 10 + (c.toNat - 48)) 0)

/-- Lines 309-312: keep only the digit characters of the text, parse with
int(), and fall back to 0 when that raises. -/
def eps_count (s : String) : Nat :=
  match pythonIntOfDigits (s.data.filter Char.isDigit) with
  | some n => n
  | none => 0

/-- One scanned catalog entry (the book_obj dict of lines 314-319). -/
structure Book where
  id : String
  name : Option String
  chapterCount : Nat
  cover : Option String
deriving DecidableEq

def mkBook (it : RawItem) : Book :=
  { id := rawId it
  , name := it.titleField <|> it.bookNameField
  , chapterCount := eps_count (eps_str it)
  , cover := it.thumbnail <|> it.coverWap }

/-- Body of the per-item loop (lines 301-321) threading the accumulated
books, the seen id set and new_count. -/
def scanPageStep (st : List Book × List String × Nat) (it : RawItem) :
    List Book × List String × Nat :=
  let bid := rawId it
  if bid ∈ st.2.1 then st
  else (st.1 ++ [mkBook it], bid :: st.2.1, st.2.2 + 1)

def scanPage (acc : List Book) (seen : List String)
    (items : List RawItem) : List Book × List String × Nat :=
  items.foldl scanPageStep (acc, seen, 0)

/-- One page of the paginated listing: err models an exception raised
while fetching or parsing the page (the whole loop body sits inside a
try block whose handler breaks), ok carries the extracted item list. -/
inductive Page
  | err : Page
  | ok : List RawItem → Page
deriving DecidableEq

/-- The while-True loop of fetch_all_available_books, over the sequence
of page results the server produces: stop on an exception, on an empty
page, or on a non-empty page that contributed no new id; otherwise move
to the next page. An exhausted page list returns the accumulator (it
models reasoning about a finite prefix of the run). -/
def fetch_all_available_books : List Page → List String → List Book → List Book
  | [], _, acc => acc
  | Page.err :: _, _, acc => acc
  | Page.ok items :: rest, seen, acc =>
    if items.isEmpty then acc
    else if (scanPage acc seen items).2.2 == 0 then (scanPage acc seen items).1
    else fetch_all_available_books rest (scanPage acc seen items).2.1
      (scanPage acc seen items).1

def scanAll (pages : List Page) : List Book :=
  fetch_all_available_books pages [] []

/-- The staleness filter of menu_download_auto_all (lines 347-351): a book
goes into the queue when no history row exists for its id or its scanned
chapterCount exceeds the stored TotalChapters. -/
def menuStale (df : List HistoryRecord) (b : Book) : Bool :=
  match check_is_downloaded df b.id with
  | none => true
  | some hist => decide (hist.TotalChapters < b.chapterCount)

/-! Model of get_with_retry (lines 55-63). The environment maps the
attempt number (0-based) to some response id or none when requests.get
raises a RequestException; the trace records the returned value or the
raised message, the sleep durations in order, and how many attempts were
issued. -/

structure RetryTrace where
  result : Except String Nat
  sleeps : List Nat
  attemptsMade : Nat

def runRetry (att : Nat → Option Nat) (delay : Nat) :
    Nat → Nat → List Nat → RetryTrace
  | i, 0, sleeps => ⟨Except.error "Max retries exceeded", sleeps, i⟩
  | i, fuel + 1, sleeps =>
    match att i with
    | some r => ⟨Except.ok r, sleeps, i + 1⟩
    | none => runRetry att delay (i + 1) fuel (sleeps ++ [delay * (i + 1)])

/-- get_with_retry with the default retries=3: attempt, and on failure
sleep delay * (i + 1) and try again; raise after the loop ends. -/
def get_with_retry (att : Nat → Option Nat) (delay : Nat) : RetryTrace :=
  runRetry att delay 0 3 []

/-- Length of the initial run of failing attempts, capped at the retry
bound 3. -/
def numFailedAttempts (att : Nat → Option Nat) : Nat :=
  match att 0 with
  | some _ => 0
  | none =>
    match att 1 with
    | some _ => 1
    | none =>
      match att 2 with
      | some _ => 2
      | none => 3

/-! Model of the three detail-resolution paths (C6). A detail response is
summarised by the truthiness of the success field, whether the status
field is the literal True, and the truthiness of the data payload. -/

structure DetailResp where
  success : Bool
  statusIsTrue : Bool
  hasData : Bool
deriving DecidableEq

/-- process_book_parallel, lines 176-179: reject only when success is
falsy, status is not True, and the data payload is falsy as well. -/
def process_book_accepts (r : DetailResp) : Bool :=
  if !r.success && !r.statusIsTrue then
    if !r.hasData then false else true
  else true

/-- download_specific_chapter, lines 437-439: reject whenever success is
falsy, without looking at the payload. -/
def specific_chapter_accepts (r : DetailResp) : Bool :=
  r.success

/-- DramaboxScraper._get, dramabox_scraper.py lines 43-53: return the
payload when success is truthy, otherwise log and return None. -/
def scraper_get_accepts (r : DetailResp) : Bool :=
  r.success

/-- Specification-side decimal reading of a digit string, written as a
positional sum so it is independent of the foldl the code performs. -/
def decimalValue : List Char → Nat
  | [] => 0
  | c :: cs => (c.toNat - 48) * 10 ^ cs.length + decimalValue cs

/-- Sample catalog item used by concrete witnesses. -/
def sampleItemA : RawItem :=
  ⟨some "A", none, some "74 Episode", some "t", none, none, none⟩

/-- Invariant threaded through the scanner: accumulated book ids are
pairwise distinct and every accumulated id is in the seen set. -/
def scanInv (acc : List Book) (seen : List String) : Prop :=
  (acc.map Book.id).Nodup ∧ ∀ b ∈ acc, b.id ∈ seen

/-! Theorems. -/

theorem success_add_failure (rs : List DLResult) :
    successCount rs + failureCount rs = rs.length := by
  induction rs with
  | nil => rfl
  | cons r rs ih =>
    cases h : r.ok <;>
      simp [successCount, failureCount, List.filter_cons, h] at ih ⊢ <;>
      omega

theorem skipCheck_iff (e : DLEnv) :
    skipCheck e = true ↔
      ∃ ls, e.localSize = some ls ∧ 0 < ls ∧
        (e.remoteSize = 0 ∨ ls = e.remoteSize) := by
  cases h : e.localSize with
  | none => simp [skipCheck, h]
  | some ls =>
    simp only [skipCheck, h, Bool.and_eq_true, Bool.or_eq_true,
      decide_eq_true_eq, beq_iff_eq, Option.some.injEq]
    constructor
    · rintro ⟨h1, h2⟩
      exact ⟨ls, rfl, h1, h2⟩
    · rintro ⟨ls2, rfl, h1, h2⟩
      exact ⟨h1, h2⟩

/-- Claim C1 counterexample: the destination file exists with local size
0 and the probed remote size is 0 (unknown), so the claimed skip
condition (local equals remote, and remote unknown) holds, yet
download_file streams and overwrites instead of skipping. -/
theorem C1_counterexample :
    download_file ⟨some 0, 0, true, [7], none⟩ =
      ⟨true, Outcome.downloaded, some [7]⟩ ∧
    (download_file ⟨some 0, 0, true, [7], none⟩).outcome ≠ Outcome.skipped ∧
    (download_file ⟨some 0, 0, true, [7], none⟩).written ≠ none := by
  decide

/-- Claim C1 (amended): if the destination file exists with a strictly
positive local size that equals the probed remote size, or such a file
exists and the remote size is unknown (0), download_file returns success
with a skipped outcome and writes nothing; otherwise, when the request
and stream succeed, it streams the full body to the destination,
overwriting it. -/
theorem C1_skip_semantics (e : DLEnv) :
    ((∃ ls, e.localSize = some ls ∧ 0 < ls ∧
        (e.remoteSize = 0 ∨ ls = e.remoteSize)) →
      download_file e = ⟨true, Outcome.skipped, none⟩) ∧
    ((¬ ∃ ls, e.localSize = some ls ∧ 0 < ls ∧
        (e.remoteSize = 0 ∨ ls = e.remoteSize)) →
      e.connOk = true → e.failAt = none →
      download_file e = ⟨true, Outcome.downloaded, some e.body⟩) := by
  constructor
  · intro hs
    have hsc : skipCheck e = true := (skipCheck_iff e).2 hs
    simp [download_file, hsc]
  · intro hns hc hf
    have hsc : skipCheck e = false := by
      cases hsc : skipCheck e
      · rfl
      · exact absurd ((skipCheck_iff e).1 hsc) hns
    simp [download_file, hsc, hc, hf]

theorem C1_skip_semantics_witness :
    download_file ⟨some 5, 0, true, [9], none⟩ =
      ⟨true, Outcome.skipped, none⟩ :=
  (C1_skip_semantics ⟨some 5, 0, true, [9], none⟩).1
    ⟨5, rfl, by decide, Or.inl rfl⟩

/-- Claim C9: when the destination file exists but is empty (size 0),
download_file never takes the skip branch, whatever the probed remote
size is; it issues the download, and when the stream succeeds it
overwrites the file with the full body. -/
theorem C9_empty_file_never_skipped (e : DLEnv) (h : e.localSize = some 0) :
    (download_file e).outcome ≠ Outcome.skipped ∧
    (e.connOk = true → (download_file e).written ≠ none) ∧
    (e.connOk = true → e.failAt = none →
      download_file e = ⟨true, Outcome.downloaded, some e.body⟩) := by
  have hsc : skipCheck e = false := by simp [skipCheck, h]
  refine ⟨?_, ?_, ?_⟩
  · cases hc : e.connOk <;> cases hf : e.failAt <;>
      simp [download_file, hsc, hc, hf]
  · intro hc
    cases hf : e.failAt <;> simp [download_file, hsc, hc, hf]
  · intro hc hf
    simp [download_file, hsc, hc, hf]

theorem C9_witness :
    (download_file ⟨some 0, 0, true, [1, 2], none⟩).outcome ≠
      Outcome.skipped :=
  (C9_empty_file_never_skipped ⟨some 0, 0, true, [1, 2], none⟩ rfl).1

/-- Claim C2: every submitted task yields exactly one result (the model
of download_file is a total function into status-message results), and
for any completion order (any permutation of the per-task results) the
count of successes plus the count of failures equals the number of
submitted tasks. -/
theorem C2_batch_accounting (envs : List DLEnv) (order : List DLResult)
    (h : order.Perm (batchResults envs)) :
    successCount order + failureCount order = envs.length := by
  have h1 := success_add_failure order
  have h2 : order.length = envs.length := by
    simpa [batchResults] using h.length_eq
  omega

theorem C2_witness :
    successCount [⟨false, Outcome.failed, none⟩,
        ⟨true, Outcome.downloaded, some [1]⟩] +
      failureCount [⟨false, Outcome.failed, none⟩,
        ⟨true, Outcome.downloaded, some [1]⟩] = 2 :=
  C2_batch_accounting
    [⟨none, 0, true, [1], none⟩, ⟨none, 0, false, [], none⟩]
    [⟨false, Outcome.failed, none⟩, ⟨true, Outcome.downloaded, some [1]⟩]
    (by decide)

/-- Claim C4: the staleness filter is true exactly when the history
lookup finds no record for the id or the scanned episode count strictly
exceeds the stored TotalChapters, and false exactly when a record exists
whose TotalChapters is at least the scanned count; the model consults
nothing but the lookup result and the two counts. -/
theorem C4_stale_iff (df : List HistoryRecord) (b : Book) :
    (menuStale df b = true ↔
      (check_is_downloaded df b.id = none ∨
        ∃ r, check_is_downloaded df b.id = some r ∧
          r.TotalChapters < b.chapterCount)) ∧
    (menuStale df b = false ↔
      ∃ r, check_is_downloaded df b.id = some r ∧
        b.chapterCount ≤ r.TotalChapters) := by
  cases h : check_is_downloaded df b.id with
  | none => simp [menuStale, h]
  | some r => simp [menuStale, h, Nat.not_lt]

theorem C4_witness :
    menuStale [] ⟨"A", none, 5, none⟩ = true :=
  (C4_stale_iff [] ⟨"A", none, 5, none⟩).1.mpr (Or.inl rfl)

theorem upsert_filter_self (df : List HistoryRecord) (k t : String)
    (n : Nat) (s d : String) :
    (save_to_history df k t n s d).filter (fun r => r.BookID == k) =
      [⟨k, t, n, d, s⟩] := by
  simp only [save_to_history, List.filter_append]
  have h1 : (df.filter (fun r => r.BookID != k)).filter
      (fun r => r.BookID == k) = [] := by
    induction df with
    | nil => rfl
    | cons r rs ih =>
      by_cases h : r.BookID = k <;>
        simp [List.filter_cons, h, bne, ih]
  rw [h1]
  simp [List.filter_cons]

theorem upsert_nodup (df : List HistoryRecord) (k t : String) (n : Nat)
    (s d : String) (h : (df.map HistoryRecord.BookID).Nodup) :
    ((save_to_history df k t n s d).map HistoryRecord.BookID).Nodup := by
  simp only [save_to_history, List.map_append, List.map_cons, List.map_nil]
  refine List.Nodup.append ?_ (List.nodup_singleton _) ?_
  · exact h.sublist ((List.filter_sublist df).map HistoryRecord.BookID)
  · intro x hx hy
    simp only [List.mem_singleton] at hy
    subst hy
    rcases List.mem_map.1 hx with ⟨r, hr, hid⟩
    rcases List.mem_filter.1 hr with ⟨_, hne⟩
    simp only [bne_iff_ne, ne_eq] at hne
    exact hne hid

/-- Claim C5: save_to_history is an idempotent upsert — after any call
with id k the record list holds exactly one row for k and it carries the
latest values; a second call with the same id again leaves exactly one
row for k; and the at-most-one-record-per-id invariant is preserved by
every call. -/
theorem C5_history_upsert (df : List HistoryRecord) (k t : String)
    (n : Nat) (s d : String)
    (hnd : (df.map HistoryRecord.BookID).Nodup) :
    ((save_to_history df k t n s d).filter (fun r => r.BookID == k) =
      [⟨k, t, n, d, s⟩]) ∧
    (((save_to_history df k t n s d).map HistoryRecord.BookID).Nodup) ∧
    (∀ t2 n2 s2 d2,
      (save_to_history (save_to_history df k t n s d) k t2 n2 s2 d2).filter
        (fun r => r.BookID == k) = [⟨k, t2, n2, d2, s2⟩]) :=
  ⟨upsert_filter_self df k t n s d, upsert_nodup df k t n s d hnd,
    fun t2 n2 s2 d2 => upsert_filter_self _ k t2 n2 s2 d2⟩

theorem C5_witness :
    (save_to_history [] "A" "T" 3 "Completed" "2026-10-12").filter
      (fun r => r.BookID == "A") =
      [⟨"A", "T", 3, "2026-10-12", "Completed"⟩] :=
  (C5_history_upsert [] "A" "T" 3 "Completed" "2026-10-12" (by simp)).1

/-- Claim C6 counterexample: a detail response whose success flag is
falsy, whose status field is not the literal True, and which does carry a
data payload. The full-book path accepts it, but the single-chapter path
and the scraper transport reject it, so the claimed behaviour does not
hold in every resolution path. -/
theorem C6_counterexample :
    process_book_accepts ⟨false, false, true⟩ = true ∧
    specific_chapter_accepts ⟨false, false, true⟩ = false ∧
    scraper_get_accepts ⟨false, false, true⟩ = false := by
  decide

/-- Claim C6 (amended): only the full-book resolution path rejects a
detail response exactly when the success flag is falsy, the status field
is not True, and no data payload exists — there a response carrying a
payload is always accepted; the single-chapter path and the scraper
transport instead reject exactly when the success flag is falsy, even
when a payload is present. -/
theorem C6_resolution_paths (r : DetailResp) :
    (process_book_accepts r = false ↔
      (r.success = false ∧ r.statusIsTrue = false ∧ r.hasData = false)) ∧
    (r.hasData = true → process_book_accepts r = true) ∧
    (specific_chapter_accepts r = false ↔ r.success = false) ∧
    (scraper_get_accepts r = false ↔ r.success = false) := by
  rcases r with ⟨s, st, hd⟩
  cases s <;> cases st <;> cases hd <;> decide

theorem C6_witness :
    process_book_accepts ⟨false, false, true⟩ = true :=
  (C6_resolution_paths ⟨false, false, true⟩).2.1 rfl

/-- Claim C7: get_with_retry issues at most 3 attempts, raises exactly
the message Max retries exceeded precisely when all three attempts fail,
and the sleeps it performs are delay times the 1-based number of the
attempt that just failed, in increasing order. -/
theorem C7_retry_policy (att : Nat → Option Nat) (delay : Nat) :
    (get_with_retry att delay).attemptsMade ≤ 3 ∧
    ((get_with_retry att delay).result =
        Except.error "Max retries exceeded" ↔
      (att 0 = none ∧ att 1 = none ∧ att 2 = none)) ∧
    (get_with_retry att delay).sleeps =
      (List.range (numFailedAttempts att)).map (fun i => delay * (i + 1)) := by
  cases h0 : att 0 <;> cases h1 : att 1 <;> cases h2 : att 2 <;>
    simp [get_with_retry, runRetry, numFailedAttempts, h0, h1, h2,
      List.range_succ]

theorem C7_witness :
    (get_with_retry (fun _ => none) 1).result =
      Except.error "Max retries exceeded" :=
  (C7_retry_policy (fun _ => none) 1).2.1.mpr ⟨rfl, rfl, rfl⟩

theorem foldl_digits (ds : List Char) (n : Nat) :
    ds.foldl (fun m c => m * 10 + (c.toNat - 48)) n =
      n * 10 ^ ds.length + decimalValue ds := by
  induction ds generalizing n with
  | nil => simp [decimalValue]
  | cons c cs ih =>
    simp only [List.foldl_cons, decimalValue, List.length_cons, ih]
    ring

theorem eps_count_eq (s : String) :
    eps_count s =
      (if s.data.filter Char.isDigit = [] then 0
       else decimalValue (s.data.filter Char.isDigit)) := by
  by_cases h : s.data.filter Char.isDigit = []
  · simp [eps_count, pythonIntOfDigits, h]
  · have hne : (s.data.filter Char.isDigit).isEmpty = false := by
      simpa [List.isEmpty_iff] using h
    simp [eps_count, pythonIntOfDigits, hne, h, foldl_digits]

/-- Claim C8: the episode count of a scanned catalog entry is the decimal
value of the concatenation of exactly the digit characters of the
free-text episode field; a missing field (defaulted to the text 0) and a
text without digits both yield 0, and the text 74 Episode yields 74. -/
theorem C8_episode_digit_parse (it : RawItem) :
    ((mkBook it).chapterCount =
      (if (eps_str it).data.filter Char.isDigit = [] then 0
       else decimalValue ((eps_str it).data.filter Char.isDigit))) ∧
    (it.episode = none → (mkBook it).chapterCount = 0) ∧
    ((eps_str it).data.filter Char.isDigit = [] →
      (mkBook it).chapterCount = 0) ∧
    eps_count "74 Episode" = 74 := by
  refine ⟨?_, ?_, ?_, ?_⟩
  · simpa [mkBook] using eps_count_eq (eps_str it)
  · intro h
    simp only [mkBook, eps_str, h, Option.getD_none]
    rfl
  · intro h
    have := eps_count_eq (eps_str it)
    rw [if_pos h] at this
    simpa [mkBook] using this
  · rfl

theorem C8_witness :
    eps_count "74 Episode" = 74 :=
  (C8_episode_digit_parse sampleItemA).2.2.2

/-- Claim C10: the catalog scan is a total function of the page
sequence — an exception while fetching or parsing a page (a Page.err)
makes it stop and return exactly the entries accumulated from the
earlier pages, never propagating the failure. -/
theorem C10_error_returns_partial (rest : List Page) (seen : List String)
    (acc : List Book) :
    fetch_all_available_books (Page.err :: rest) seen acc = acc := rfl

theorem C10_witness :
    fetch_all_available_books [Page.err] ["A"] [⟨"A", none, 3, none⟩] =
      [⟨"A", none, 3, none⟩] :=
  C10_error_returns_partial [] ["A"] [⟨"A", none, 3, none⟩]

theorem scanPage_count_mono (items : List RawItem)
    (st : List Book × List String × Nat) :
    st.2.2 ≤ (items.foldl scanPageStep st).2.2 := by
  induction items generalizing st with
  | nil => exact Nat.le_refl _
  | cons it its ih =>
    refine Nat.le_trans ?_ (ih (scanPageStep st it))
    unfold scanPageStep
    by_cases h : rawId it ∈ st.2.1 <;> simp [h]

theorem scanPage_count_zero (items : List RawItem)
    (st : List Book × List String × Nat)
    (h : (items.foldl scanPageStep st).2.2 = st.2.2) :
    items.foldl scanPageStep st = st := by
  induction items generalizing st with
  | nil => rfl
  | cons it its ih =>
    by_cases hm : rawId it ∈ st.2.1
    · have hstep : scanPageStep st it = st := by
        unfold scanPageStep
        simp [hm]
      rw [List.foldl_cons, hstep] at h ⊢
      exact ih st h
    · exfalso
      have hstep : (scanPageStep st it).2.2 = st.2.2 + 1 := by
        unfold scanPageStep
        simp [hm]
      have hmono := scanPage_count_mono its (scanPageStep st it)
      rw [List.foldl_cons] at h
      omega

theorem scanPageStep_inv (st : List Book × List String × Nat) (it : RawItem)
    (h : scanInv st.1 st.2.1) :
    scanInv (scanPageStep st it).1 (scanPageStep st it).2.1 := by
  unfold scanPageStep
  by_cases hm : rawId it ∈ st.2.1
  · simpa [hm] using h
  · simp only [hm, if_false]
    constructor
    · rw [List.map_append]
      refine List.Nodup.append h.1 (List.nodup_singleton _) ?_
      intro x hx hy
      simp only [List.map_cons, List.map_nil, List.mem_singleton] at hy
      subst hy
      rcases List.mem_map.1 hx with ⟨b, hb, hid⟩
      have : (mkBook it).id ∈ st.2.1 := hid ▸ h.2 b hb
      simp only [mkBook] at this
      exact hm this
    · intro b hb
      rcases List.mem_append.1 hb with hb1 | hb2
      · exact List.mem_cons_of_mem _ (h.2 b hb1)
      · simp only [List.mem_singleton] at hb2
        subst hb2
        simp [mkBook]

theorem scanPage_inv (items : List RawItem)
    (st : List Book × List String × Nat) (h : scanInv st.1 st.2.1) :
    scanInv (items.foldl scanPageStep st).1
      (items.foldl scanPageStep st).2.1 := by
  induction items generalizing st with
  | nil => exact h
  | cons it its ih => exact ih _ (scanPageStep_inv st it h)

theorem fetch_inv (pages : List Page) (seen : List String)
    (acc : List Book) (h : scanInv acc seen) :
    ((fetch_all_available_books pages seen acc).map Book.id).Nodup := by
  induction pages generalizing seen acc with
  | nil => exact h.1
  | cons p rest ih =>
    cases p with
    | err => exact h.1
    | ok items =>
      have hinv := scanPage_inv items (acc, seen, 0) h
      by_cases he : items.isEmpty
      · simp only [fetch_all_available_books, he, if_true]
        exact h.1
      · by_cases hz : (scanPage acc seen items).2.2 = 0
        · simp only [fetch_all_available_books, he, if_false,
            hz, beq_self_eq_true, if_true]
          exact hinv.1
        · have hz2 : ((scanPage acc seen items).2.2 == 0) = false := by
            simpa using hz
          simp only [fetch_all_available_books, he, if_false, hz2]
          exact ih _ _ hinv

/-- Claim C3: the scan stops as soon as a page yields items none of which
is new with respect to the running seen set (returning exactly the
entries accumulated so far, whatever pages would follow), it stops on a
page with zero items, and the entries it returns are deduplicated by
identifier across all pages (their ids are pairwise distinct). -/
theorem C3_loop_guard_dedup (items : List RawItem) (rest : List Page)
    (seen : List String) (acc : List Book)
    (hne : items ≠ []) (hz : (scanPage acc seen items).2.2 = 0) :
    fetch_all_available_books (Page.ok items :: rest) seen acc = acc ∧
    fetch_all_available_books (Page.ok [] :: rest) seen acc = acc ∧
    ∀ pages : List Page, ((scanAll pages).map Book.id).Nodup := by
  refine ⟨?_, rfl, ?_⟩
  · have hs : scanPage acc seen items = (acc, seen, 0) :=
      scanPage_count_zero items (acc, seen, 0) hz
    have he : items.isEmpty = false := by
      simpa [List.isEmpty_iff] using hne
    simp only [fetch_all_available_books, he, if_false, hs]
    rfl
  · intro pages
    exact fetch_inv pages [] [] ⟨List.nodup_nil, by simp⟩

theorem C3_witness :
    fetch_all_available_books (Page.ok [sampleItemA] :: [Page.err])
      ["A"] [] = [] :=
  (C3_loop_guard_dedup [sampleItemA] [Page.err] ["A"] []
    (by simp) (by decide)).1
